import Mathlib

/-!
Shallow embedding of `crates/eframe/src/web/web_painter_glow.rs` (egui).

The file models the WebGL context negotiation (`init_glow_context_from_canvas`,
`init_webgl1`, `init_webgl2`, `webgl1_requires_brightening`,
`is_safari_and_webkit_gtk`) and the frame-painting protocol of
`WebPainterGlow` (`new`, `paint_and_update_textures`, `handle_screenshots`).

Host-environment interactions (DOM canvas queries, user agent, WebGL
extension queries, framebuffer readback) are modelled as explicit data:
each query result is a field of an environment structure, and effectful
calls made by the painter are recorded in an explicit trace list.
Rust `Result<T, E>` becomes `Except`; Rust panics (`expect` / `unwrap`)
become the error branch of an outer `Except String`, carrying the panic
message. `f32` values are only passed through by this code, never computed
with, so they are modelled as exact rationals.
-/

namespace WebPainterGlowSpec

/-- Substring containment, the model of Rust `str::contains(&str)`. -/
def strContains (hay sub : String) : Bool :=
  decide (List.IsInfix sub.toList hay.toList)

/-- View of `Except` as a sum, to derive decidable equality. -/
def exceptToSum {ε α : Type} : Except ε α → ε ⊕ α
  | .error e => Sum.inl e
  | .ok a => Sum.inr a

instance {ε α : Type} [DecidableEq ε] [DecidableEq α] : DecidableEq (Except ε α) :=
  fun x y =>
    decidable_of_iff (exceptToSum x = exceptToSum y)
      (by cases x <;> cases y <;> simp [exceptToSum])

/-- Model of a `wasm_bindgen::JsValue`: the only observation the source makes
of one is `as_string`. -/
structure JsVal where
  asString : Option String
deriving DecidableEq, Repr

/-- Model of `web_sys::WebGlRenderingContext` (a WebGL1 context object): the
outcomes of the two host queries the source performs on it.
`getExtensionDebugRendererInfo` is the result of
`get_extension("WEBGL_debug_renderer_info")` (error = the query threw, which
the source unwraps into a panic; `Option Unit` = whether the extension object
is present). `getParameterUnmaskedRenderer` is the result of
`get_parameter(UNMASKED_RENDERER_WEBGL)`. -/
structure WebGlRenderingContext where
  getExtensionDebugRendererInfo : Except String (Option Unit)
  getParameterUnmaskedRenderer : Except String JsVal
deriving DecidableEq, Repr

/-- Model of `web_sys::WebGl2RenderingContext`: opaque, no queries are made. -/
structure WebGl2RenderingContext where
  id : Nat
deriving DecidableEq, Repr

/-- Model of `glow::Context`: constructed from one of the two WebGL context
kinds, remembering which (`from_webgl1_context` / `from_webgl2_context`). -/
inductive GlowContext where
  | from_webgl1_context (ctx : WebGlRenderingContext)
  | from_webgl2_context (ctx : WebGl2RenderingContext)
deriving DecidableEq, Repr

/-- Model of the browser window object: `navigator().user_agent()`, which is
a `Result<String, JsValue>` that the source unwraps. -/
structure Window where
  userAgent : Except String String
deriving DecidableEq, Repr

/-- Model of the browser global environment: `web_sys::window()`, an
`Option` that the source unwraps. -/
structure Browser where
  window : Option Window
deriving DecidableEq, Repr

/-- Model of `web_sys::HtmlCanvasElement`: its pixel dimensions and the
outcomes of `get_context("webgl")` / `get_context("webgl2")`, each a
`Result<Option<Object>, JsValue>` (error = the capability query itself
threw; `none` = the browser does not supply that context version). The
`dyn_into` casts in the source always succeed for objects returned by
`get_context`, so the payload is modelled directly at the cast type. -/
structure Canvas where
  width : Nat
  height : Nat
  getContextWebgl : Except String (Option WebGlRenderingContext)
  getContextWebgl2 : Except String (Option WebGl2RenderingContext)
deriving DecidableEq, Repr

/-- Model of `crate::WebGlContextOption` with its four variants. -/
inductive WebGlContextOption where
  | WebGl1
  | WebGl2
  | BestFirst
  | CompatibilityFirst
deriving DecidableEq, Repr

/-- Which context version a negotiation step queried, for the attempt trace. -/
inductive GlQuery where
  | webgl1
  | webgl2
deriving DecidableEq, Repr

/-- Embedding of `is_safari_and_webkit_gtk`: extension present, parameter
read `Ok`, value is a string containing "Apple" gives `true`; every other
non-panicking path gives `false`; a thrown extension query is unwrapped by
the source into a panic (`Except.error`). -/
def is_safari_and_webkit_gtk (gl : WebGlRenderingContext) : Except String Bool :=
  match gl.getExtensionDebugRendererInfo with
  | .error e => .error e
  | .ok ext =>
    if ext.isSome then
      match gl.getParameterUnmaskedRenderer with
      | .ok renderer =>
        match renderer.asString with
        | some r => if strContains r "Apple" then .ok true else .ok false
        | none => .ok false
      | .error _ => .ok false
    else
      .ok false

/-- Embedding of `webgl1_requires_brightening`: reads the user agent
(unwrapping `window()` and `user_agent()`), and short-circuits exactly as the
Rust `&&` does: when the user agent contains "Mac OS X" the renderer
inspection is never performed. -/
def webgl1_requires_brightening (env : Browser) (gl : WebGlRenderingContext) :
    Except String Bool :=
  match env.window with
  | none => .error "window unwrap failed"
  | some w =>
    match w.userAgent with
    | .error e => .error e
    | .ok user_agent =>
      if strContains user_agent "Mac OS X" then
        .ok false
      else
        is_safari_and_webkit_gtk gl

/-- The brightening preprocessor directive chosen by the WebGL1 branch. -/
def brighteningDirective : String := "#define APPLY_BRIGHTENING_GAMMA"

/-- Embedding of `init_webgl1`: query the canvas for a "webgl" context
(`expect` turns a thrown query into a panic, message as in the source), treat
`None` as unsupported, otherwise compute the shader preamble from
`webgl1_requires_brightening` and wrap the context. -/
def init_webgl1 (env : Browser) (canvas : Canvas) :
    Except String (Option (GlowContext × String)) :=
  match canvas.getContextWebgl with
  | .error _ => .error "Failed to query about WebGL2 context"
  | .ok none => .ok none
  | .ok (some gl1_ctx) =>
    match webgl1_requires_brightening env gl1_ctx with
    | .error p => .error p
    | .ok b =>
      let pre := if b then brighteningDirective else ""
      .ok (some (GlowContext.from_webgl1_context gl1_ctx, pre))

/-- Embedding of `init_webgl2`: query the canvas for a "webgl2" context
(`expect` turns a thrown query into a panic), treat `None` as unsupported,
otherwise wrap the context with an empty shader preamble. -/
def init_webgl2 (canvas : Canvas) :
    Except String (Option (GlowContext × String)) :=
  match canvas.getContextWebgl2 with
  | .error _ => .error "Failed to query about WebGL2 context"
  | .ok none => .ok none
  | .ok (some gl2_ctx) =>
    .ok (some (GlowContext.from_webgl2_context gl2_ctx, ""))

/-- `init_webgl1` together with its attempt-trace entry. -/
def init_webgl1T (env : Browser) (canvas : Canvas) :
    List GlQuery × Except String (Option (GlowContext × String)) :=
  ([GlQuery.webgl1], init_webgl1 env canvas)

/-- `init_webgl2` together with its attempt-trace entry. -/
def init_webgl2T (canvas : Canvas) :
    List GlQuery × Except String (Option (GlowContext × String)) :=
  ([GlQuery.webgl2], init_webgl2 canvas)

/-- Trace-carrying model of `Option::or_else` as used between the two init
functions: the second attempt runs (and its queries are traced) only when
the first returned `Ok(None)`. -/
def orElseT
    (a b : List GlQuery × Except String (Option (GlowContext × String))) :
    List GlQuery × Except String (Option (GlowContext × String)) :=
  match a with
  | (t, .error p) => (t, .error p)
  | (t, .ok (some r)) => (t, .ok (some r))
  | (t, .ok none) => (t ++ b.1, b.2)

/-- Embedding of `init_glow_context_from_canvas`: dispatch on the strategy,
then turn `Ok(None)` into the error string of the source. The first
component is the list of context versions queried, in order. The outer
`Except` is a panic (a thrown capability query), the inner one the
negotiation result. -/
def init_glow_context_from_canvas (env : Browser) (canvas : Canvas)
    (options : WebGlContextOption) :
    List GlQuery × Except String (Except String (GlowContext × String)) :=
  let result := match options with
    | .WebGl1 => init_webgl1T env canvas
    | .WebGl2 => init_webgl2T canvas
    | .BestFirst => orElseT (init_webgl2T canvas) (init_webgl1T env canvas)
    | .CompatibilityFirst => orElseT (init_webgl1T env canvas) (init_webgl2T canvas)
  (result.1,
    match result.2 with
    | .error p => .error p
    | .ok (some r) => .ok (.ok r)
    | .ok none => .ok (.error "WebGL isn't supported"))

/-- Lifting of an init-function outcome to the negotiation result: panics
propagate, a context is a success, and `None` becomes the unsupported
error of the source. -/
def negotiationResultOf (r : Except String (Option (GlowContext × String))) :
    Except String (Except String (GlowContext × String)) :=
  match r with
  | .error p => .error p
  | .ok (some x) => .ok (.ok x)
  | .ok none => .ok (.error "WebGL isn't supported")

/-- No candidate API version is available for the given strategy: every
version the strategy would try (only its own version for the two force
variants, both versions for the two prefer variants) yields a successful
query with no context object. -/
def candidateUnavailable (canvas : Canvas) : WebGlContextOption → Bool
  | .WebGl1 => decide (canvas.getContextWebgl = .ok none)
  | .WebGl2 => decide (canvas.getContextWebgl2 = .ok none)
  | .BestFirst =>
      decide (canvas.getContextWebgl = .ok none)
        && decide (canvas.getContextWebgl2 = .ok none)
  | .CompatibilityFirst =>
      decide (canvas.getContextWebgl = .ok none)
        && decide (canvas.getContextWebgl2 = .ok none)

/-- The unmasked renderer name observable on a WebGL1 context, when the
parameter read succeeds and yields a string. -/
def rendererName (ctx : WebGlRenderingContext) : Option String :=
  match ctx.getParameterUnmaskedRenderer with
  | .ok jv => jv.asString
  | .error _ => none

/-- The user agent string the painter would read, when both host reads
succeed. -/
def userAgentOf (env : Browser) : Option String :=
  match env.window with
  | some w =>
    match w.userAgent with
    | .ok ua => some ua
    | .error _ => none
  | none => none

/-- The condition the spec states for choosing the brightening directive,
written from its words: the legacy version was selected, the user agent
does not contain "Mac OS X", the debug-renderer extension is present, and
the unmasked renderer name contains "Apple". -/
def specBrighteningCondition (env : Browser) (gl : GlowContext) : Bool :=
  match gl with
  | .from_webgl2_context _ => false
  | .from_webgl1_context ctx =>
    (match userAgentOf env with
     | some ua => !strContains ua "Mac OS X"
     | none => false)
    && decide (ctx.getExtensionDebugRendererInfo = .ok (some ()))
    && (match rendererName ctx with
        | some s => strContains s "Apple"
        | none => false)

/-- Model of `egui::TextureId` (managed or user texture handle). -/
inductive TextureId where
  | Managed (n : Nat)
  | User (n : Nat)
deriving DecidableEq, Repr

/-- Opaque model of `egui::epaint::ImageDelta` (texture image patch data):
the painter only forwards it to the executor. -/
structure ImageDelta where
  data : Nat
deriving DecidableEq, Repr

/-- Model of `egui::TexturesDelta`: an ordered list of insertions
(`set : Vec<(TextureId, ImageDelta)>`) and an ordered list of removals
(`free : Vec<TextureId>`). -/
structure TexturesDelta where
  set : List (TextureId × ImageDelta)
  free : List TextureId
deriving DecidableEq, Repr

/-- Opaque model of `egui::ClippedPrimitive`: read-only draw data. -/
structure ClippedPrimitive where
  data : Nat
deriving DecidableEq, Repr

/-- Opaque model of `egui::UserData`, the capture token. -/
structure UserData where
  tag : Nat
deriving DecidableEq, Repr

/-- Opaque model of `egui::ColorImage`, a readback image. -/
structure ColorImage where
  data : Nat
deriving DecidableEq, Repr

/-- Model of `egui::ViewportId`. -/
structure ViewportId where
  id : Nat
deriving DecidableEq, Repr

/-- `ViewportId::ROOT`, which is what `ViewportId::default()` returns. -/
def ViewportId.ROOT : ViewportId := ⟨0⟩

/-- Model of `ViewportId::default()`. -/
def ViewportId.default : ViewportId := ViewportId.ROOT

/-- Model of a clear color (`[f32; 4]`), carried through untouched. -/
structure ClearColor where
  r : Rat
  g : Rat
  b : Rat
  a : Rat
deriving DecidableEq, Repr

/-- Model of `egui::Event`, restricted to the one variant this code
constructs (`Event::Screenshot`) plus an opaque stand-in for every other
variant a caller may already have in its event list. -/
inductive Event where
  | Screenshot (viewport_id : ViewportId) (image : ColorImage) (user_data : UserData)
  | Other (n : Nat)
deriving DecidableEq, Repr

/-- The viewport id carried by an event, when it is a screenshot event. -/
def Event.viewportId : Event → Option ViewportId
  | .Screenshot v _ _ => some v
  | .Other _ => none

/-- Model of the state of `egui_glow::Painter`, the draw-primitive executor.
Modelled from the spec: the executor itself is repository code outside this
slice; the spec describes it as holding the uploaded textures (insertions
visible to the same frame, removals applied after drawing), keyed by texture
id. The texture store is an ordered association list. -/
structure Painter where
  gl : GlowContext
  preamble : String
  dithering : Bool
  textures : List (TextureId × ImageDelta)
deriving DecidableEq, Repr

/-- Insert-or-replace into the texture store, the model of
`egui_glow::Painter::set_texture`. Modelled from the spec: uploads the image
delta for the given id to the executor. -/
def Painter.set_texture (p : Painter) (id : TextureId) (delta : ImageDelta) : Painter :=
  { p with textures :=
      if p.textures.any (fun e => e.1 = id) then
        p.textures.map (fun e => if e.1 = id then (id, delta) else e)
      else
        p.textures ++ [(id, delta)] }

/-- Removal from the texture store, the model of
`egui_glow::Painter::free_texture`. Modelled from the spec: releases the
texture with the given id. -/
def Painter.free_texture (p : Painter) (id : TextureId) : Painter :=
  { p with textures := p.textures.filter (fun e => e.1 ≠ id) }

/-- First-match lookup in an association list of textures. -/
def lookupKey : List (TextureId × ImageDelta) → TextureId → Option ImageDelta
  | [], _ => none
  | e :: tl, id => if e.1 = id then some e.2 else lookupKey tl id

/-- Lookup in the texture store. -/
def Painter.lookupTexture (p : Painter) (id : TextureId) : Option ImageDelta :=
  lookupKey p.textures id

/-- Model of `WebPainterGlow`: the canvas handle, the executor, and the
FIFO queue of pending screenshots (`Vec<(ColorImage, Vec<UserData>)>`). -/
structure WebPainterGlow where
  canvas : Canvas
  painter : Painter
  screenshots : List (ColorImage × List UserData)
deriving DecidableEq, Repr

/-- One host / executor call made during a paint call, in order: the trace
lets the sequencing contract of the source be stated explicitly. -/
inductive PaintCall where
  | readDims (w h : Nat)
  | setTexture (id : TextureId) (delta : ImageDelta)
  | clear (dims : Nat × Nat) (color : ClearColor)
  | paintPrimitives (dims : Nat × Nat) (pixels_per_point : Rat)
      (prims : List ClippedPrimitive)
  | readScreen (dims : Nat × Nat)
  | freeTexture (id : TextureId)
deriving DecidableEq, Repr

/-- Whether a trace entry is the framebuffer readback. -/
def PaintCall.isReadScreen : PaintCall → Bool
  | .readDims _ _ => false
  | .setTexture _ _ => false
  | .clear _ _ => false
  | .paintPrimitives _ _ _ => false
  | .readScreen _ => true
  | .freeTexture _ => false

/-- Host-side data a paint call consumes. `read_screen_rgba` is the
framebuffer readback, a host operation outside this slice, modelled as a
function of the dimensions passed to it. `callFails` is modelled from the
spec: the spec postulates that any host-API call during upload, clear, draw
or readback may fail; this predicate says which calls the host fails. -/
structure PaintEnv where
  read_screen_rgba : Nat × Nat → ColorImage
  callFails : PaintCall → Bool

/-- Result of a paint call: the returned value, the updated painter state,
and the trace of host / executor calls in the order the source makes them. -/
structure PaintResult where
  result : Except String Unit
  state : WebPainterGlow
  trace : List PaintCall

/-- Embedding of `WebPainterGlow::paint_and_update_textures`: read the canvas
dimensions once, upload every insertion of the delta in order, clear, draw
the primitives, read back the framebuffer and enqueue one pending screenshot
when the capture list is non-empty, then free every removal of the delta in
order, and return `Ok(())`. -/
def paint_and_update_textures (env : PaintEnv) (self : WebPainterGlow)
    (clear_color : ClearColor) (clipped_primitives : List ClippedPrimitive)
    (pixels_per_point : Rat) (textures_delta : TexturesDelta)
    (capture : List UserData) : PaintResult :=
  let canvas_dimension := (self.canvas.width, self.canvas.height)
  let painter1 := textures_delta.set.foldl
    (fun p e => Painter.set_texture p e.1 e.2) self.painter
  let capResult :=
    if capture.isEmpty then (self.screenshots, ([] : List PaintCall))
    else
      let image := env.read_screen_rgba canvas_dimension
      (self.screenshots ++ [(image, capture)], [PaintCall.readScreen canvas_dimension])
  let painter2 := textures_delta.free.foldl
    (fun p id => Painter.free_texture p id) painter1
  { result := .ok ()
    state := { self with painter := painter2, screenshots := capResult.1 }
    trace :=
      [PaintCall.readDims canvas_dimension.1 canvas_dimension.2]
      ++ textures_delta.set.map (fun e => PaintCall.setTexture e.1 e.2)
      ++ [PaintCall.clear canvas_dimension clear_color,
          PaintCall.paintPrimitives canvas_dimension pixels_per_point clipped_primitives]
      ++ capResult.2
      ++ textures_delta.free.map (fun id => PaintCall.freeTexture id) }

/-- Embedding of `WebPainterGlow::handle_screenshots`: drain the whole queue
in order; for each entry share its image (`Arc::new` + `clone`, modelled as
reusing the same value) and push one `Event::Screenshot` per capture token,
in token order, onto the caller-supplied event list. -/
def handle_screenshots (self : WebPainterGlow) (events : List Event) :
    WebPainterGlow × List Event :=
  let newEvents := self.screenshots.flatMap (fun entry =>
    entry.2.map (fun d => Event.Screenshot ViewportId.default entry.1 d))
  ({ self with screenshots := [] }, events ++ newEvents)

/-- Model of `crate::WebOptions`, restricted to the fields this code reads. -/
structure WebOptions where
  webgl_context_option : WebGlContextOption
  dithering : Bool
deriving DecidableEq, Repr

/-- Outcome of `egui_glow::Painter::new` for a given context. Modelled from
the spec: executor construction is repository code outside this slice and is
fallible; this field gives its outcome. -/
structure GlowEnv where
  painter_new : GlowContext → String → Bool → Except String Unit

/-- Embedding of `egui_glow::Painter::new` as used by `WebPainterGlow::new`.
Modelled from the spec: on success the executor starts with no textures. -/
def Painter.new (genv : GlowEnv) (gl : GlowContext) (pre : String)
    (dithering : Bool) : Except String Painter :=
  match genv.painter_new gl pre dithering with
  | .error e => .error e
  | .ok _ => .ok { gl := gl, preamble := pre, dithering := dithering, textures := [] }

/-- Embedding of `WebPainterGlow::new`: run context negotiation (a `?` on
its result), construct the executor (mapping its error through the format
string of the source), and return the painter with an empty screenshot
queue. The outer `Except` is a panic, the inner one the `Result` returned to
the caller. -/
def WebPainterGlow.new (genv : GlowEnv) (env : Browser) (canvas : Canvas)
    (options : WebOptions) : Except String (Except String WebPainterGlow) :=
  match (init_glow_context_from_canvas env canvas options.webgl_context_option).2 with
  | .error p => .error p
  | .ok (.error e) => .ok (.error e)
  | .ok (.ok r) =>
    match Painter.new genv r.1 r.2 options.dithering with
    | .error err => .ok (.error ("Error starting glow painter: " ++ err))
    | .ok painter =>
      .ok (.ok { canvas := canvas, painter := painter, screenshots := [] })

/-- Sample WebGL1 context object: extension present, renderer "Apple GPU". -/
def sampleGl1Ctx : WebGlRenderingContext :=
  { getExtensionDebugRendererInfo := .ok (some ())
    getParameterUnmaskedRenderer := .ok { asString := some "Apple GPU" } }

/-- Sample window with a non-macOS user agent. -/
def sampleWindow : Window := { userAgent := .ok "X11 Linux WebKitGTK" }

/-- Sample browser environment. -/
def sampleBrowser : Browser := { window := some sampleWindow }

/-- Sample WebGL2 context object. -/
def sampleGl2Ctx : WebGl2RenderingContext := { id := 1 }

/-- Canvas offering only a WebGL1 context. -/
def canvasOnly1 : Canvas :=
  { width := 640, height := 480
    getContextWebgl := .ok (some sampleGl1Ctx), getContextWebgl2 := .ok none }

/-- Canvas offering only a WebGL2 context. -/
def canvasOnly2 : Canvas :=
  { width := 640, height := 480
    getContextWebgl := .ok none, getContextWebgl2 := .ok (some sampleGl2Ctx) }

/-- Canvas offering both context versions. -/
def canvasBoth : Canvas :=
  { width := 640, height := 480
    getContextWebgl := .ok (some sampleGl1Ctx)
    getContextWebgl2 := .ok (some sampleGl2Ctx) }

/-- Canvas offering neither context version (queries succeed, no context). -/
def canvasNone : Canvas :=
  { width := 640, height := 480
    getContextWebgl := .ok none, getContextWebgl2 := .ok none }

/-- Canvas whose capability queries both throw. -/
def canvasErrBoth : Canvas :=
  { width := 640, height := 480
    getContextWebgl := .error "ctx query threw"
    getContextWebgl2 := .error "ctx query threw" }

/-- Sample executor-construction environment that always succeeds. -/
def sampleGlowEnv : GlowEnv := { painter_new := fun _ _ _ => .ok () }

/-- Sample web options using the default strategy. -/
def sampleOptions : WebOptions := { webgl_context_option := .BestFirst, dithering := false }

/-- Sample web options forcing WebGL1. -/
def sampleOptionsForce1 : WebOptions :=
  { webgl_context_option := .WebGl1, dithering := false }

/-- Sample web options forcing WebGL2. -/
def sampleOptionsForce2 : WebOptions :=
  { webgl_context_option := .WebGl2, dithering := false }

/-- Sample readback image. -/
def sampleImage : ColorImage := { data := 7 }

/-- Sample capture token. -/
def sampleToken : UserData := { tag := 3 }

/-- Sample executor state with one texture uploaded. -/
def samplePainter : Painter :=
  { gl := GlowContext.from_webgl2_context sampleGl2Ctx
    preamble := ""
    dithering := false
    textures := [(TextureId.Managed 0, { data := 9 })] }

/-- Sample painter state with one queued screenshot. -/
def sampleQueueState : WebPainterGlow :=
  { canvas := canvasBoth, painter := samplePainter
    screenshots := [(sampleImage, [sampleToken])] }

/-- Sample paint host environment: a fixed readback image, and a host that
fails every call. -/
def samplePaintEnv : PaintEnv :=
  { read_screen_rgba := fun _ => sampleImage, callFails := fun _ => true }

/-- Sample clear color. -/
def sampleClear : ClearColor := { r := 0, g := 0, b := 0, a := 1 }

/-- Sample texture delta touching ids distinct from the uploaded one. -/
def sampleDelta : TexturesDelta :=
  { set := [(TextureId.Managed 1, { data := 5 })], free := [TextureId.Managed 2] }

/-!
Theorems.
-/

/-- C1: a paint call reads the canvas dimensions once at the start, then
performs, in this exact order: every texture insertion of the delta in
iteration order, the clear at clear color and frame dimensions, the
primitive draw scaled by pixels per point, the capture readback exactly when
requested, and finally every texture removal of the delta in iteration
order — every step using the dimensions read at the start. -/
theorem paint_step_order (env : PaintEnv) (st : WebPainterGlow)
    (clear_color : ClearColor) (prims : List ClippedPrimitive) (ppp : Rat)
    (delta : TexturesDelta) (capture : List UserData) :
    (paint_and_update_textures env st clear_color prims ppp delta capture).trace
      = [PaintCall.readDims st.canvas.width st.canvas.height]
        ++ delta.set.map (fun e => PaintCall.setTexture e.1 e.2)
        ++ [PaintCall.clear (st.canvas.width, st.canvas.height) clear_color,
            PaintCall.paintPrimitives (st.canvas.width, st.canvas.height) ppp prims]
        ++ (if capture.isEmpty then []
            else [PaintCall.readScreen (st.canvas.width, st.canvas.height)])
        ++ delta.free.map (fun id => PaintCall.freeTexture id) := by
  by_cases h : capture.isEmpty <;>
    simp [paint_and_update_textures, h]

/-- C2: `handle_screenshots` drains the whole queue in FIFO order, appending
one event per capture token of each entry, tokens in original order, each
event carrying that entry's shared image and the individual token; the queue
is empty afterwards, and the operation is total (no failure mode). -/
theorem handle_screenshots_drains_fifo (st : WebPainterGlow) (events : List Event) :
    (handle_screenshots st events).1.screenshots = []
    ∧ (handle_screenshots st events).2
      = events ++ st.screenshots.flatMap (fun entry =>
          entry.2.map (fun d => Event.Screenshot ViewportId.default entry.1 d)) :=
  ⟨rfl, rfl⟩

/-- C5: a paint call with non-empty capture tokens enqueues exactly one
pending screenshot, pairing the single readback image with the full token
list; with empty capture tokens the queue is unchanged and no readback call
occurs in the trace. -/
theorem paint_capture_queue (env : PaintEnv) (st : WebPainterGlow)
    (clear_color : ClearColor) (prims : List ClippedPrimitive) (ppp : Rat)
    (delta : TexturesDelta) (capture : List UserData) :
    (paint_and_update_textures env st clear_color prims ppp delta capture).state.screenshots
      = (if capture.isEmpty then st.screenshots
         else st.screenshots
           ++ [(env.read_screen_rgba (st.canvas.width, st.canvas.height), capture)])
    ∧ ((paint_and_update_textures env st clear_color prims ppp delta capture).trace.countP
        PaintCall.isReadScreen)
      = (if capture.isEmpty then 0 else 1) := by
  by_cases h : capture.isEmpty <;>
    simp [paint_and_update_textures, h, PaintCall.isReadScreen, List.countP_append,
      List.countP_map, Function.comp_def]

/-- C9: every event appended by `handle_screenshots` carries the default
viewport identifier, for every queue entry and every capture token. -/
theorem handle_screenshots_default_viewport (st : WebPainterGlow)
    (events : List Event) (e : Event)
    (h : e ∈ (handle_screenshots st events).2.drop events.length) :
    e.viewportId = some ViewportId.default := by
  rw [handle_screenshots] at h
  simp only [List.drop_left] at h
  simp only [List.mem_flatMap, List.mem_map] at h
  obtain ⟨entry, _, d, _, rfl⟩ := h
  rfl

/-- C10: `handle_screenshots` only appends: the prior contents of the event
list survive unchanged in their original positions, and the number of newly
appended events is the sum over the drained queue entries of their capture
token counts. -/
theorem handle_screenshots_append_only (st : WebPainterGlow) (events : List Event) :
    (handle_screenshots st events).2.take events.length = events
    ∧ (handle_screenshots st events).2.length
      = events.length + (st.screenshots.map (fun entry => entry.2.length)).sum := by
  constructor
  · rw [handle_screenshots]
    simp [List.take_left]
  · rw [handle_screenshots]
    simp [Function.comp_def]

/-- Characterization of the negotiation dispatch used by several proofs. -/
theorem init_glow_characterization (env : Browser) (canvas : Canvas) :
    init_glow_context_from_canvas env canvas .WebGl1
      = ([GlQuery.webgl1], negotiationResultOf (init_webgl1 env canvas))
    ∧ init_glow_context_from_canvas env canvas .WebGl2
      = ([GlQuery.webgl2], negotiationResultOf (init_webgl2 canvas))
    ∧ init_glow_context_from_canvas env canvas .BestFirst
      = (match init_webgl2 canvas with
         | .ok none => ([GlQuery.webgl2, GlQuery.webgl1],
             negotiationResultOf (init_webgl1 env canvas))
         | r => ([GlQuery.webgl2], negotiationResultOf r))
    ∧ init_glow_context_from_canvas env canvas .CompatibilityFirst
      = (match init_webgl1 env canvas with
         | .ok none => ([GlQuery.webgl1, GlQuery.webgl2],
             negotiationResultOf (init_webgl2 canvas))
         | r => ([GlQuery.webgl1], negotiationResultOf r)) := by
  refine ⟨rfl, rfl, ?_, ?_⟩
  · rcases h : init_webgl2 canvas with p | o
    · simp [init_glow_context_from_canvas, orElseT, init_webgl2T, init_webgl1T, h,
        negotiationResultOf]
    · cases o <;>
        simp [init_glow_context_from_canvas, orElseT, init_webgl2T, init_webgl1T, h,
          negotiationResultOf]
  · rcases h : init_webgl1 env canvas with p | o
    · simp [init_glow_context_from_canvas, orElseT, init_webgl2T, init_webgl1T, h,
        negotiationResultOf]
    · cases o <;>
        simp [init_glow_context_from_canvas, orElseT, init_webgl2T, init_webgl1T, h,
          negotiationResultOf]

/-- C3: each strategy attempts exactly its versions in its order — the force
variants query only their own version, the prefer variants query their
primary and fall back to the other only when the primary is unsupported —
and the first successfully obtained context is the one returned. -/
theorem negotiation_strategy_versions (env : Browser) (canvas : Canvas) :
    ((init_glow_context_from_canvas env canvas .WebGl1).1 = [GlQuery.webgl1])
    ∧ ((init_glow_context_from_canvas env canvas .WebGl2).1 = [GlQuery.webgl2])
    ∧ ((init_glow_context_from_canvas env canvas .BestFirst).1
        = if init_webgl2 canvas = .ok none then [GlQuery.webgl2, GlQuery.webgl1]
          else [GlQuery.webgl2])
    ∧ ((init_glow_context_from_canvas env canvas .CompatibilityFirst).1
        = if init_webgl1 env canvas = .ok none then [GlQuery.webgl1, GlQuery.webgl2]
          else [GlQuery.webgl1])
    ∧ (∀ r, init_webgl1 env canvas = .ok (some r) →
        (init_glow_context_from_canvas env canvas .WebGl1).2 = .ok (.ok r)
        ∧ (init_glow_context_from_canvas env canvas .CompatibilityFirst).2 = .ok (.ok r))
    ∧ (∀ r, init_webgl2 canvas = .ok (some r) →
        (init_glow_context_from_canvas env canvas .WebGl2).2 = .ok (.ok r)
        ∧ (init_glow_context_from_canvas env canvas .BestFirst).2 = .ok (.ok r))
    ∧ (∀ r, init_webgl2 canvas = .ok none → init_webgl1 env canvas = .ok (some r) →
        (init_glow_context_from_canvas env canvas .BestFirst).2 = .ok (.ok r))
    ∧ (∀ r, init_webgl1 env canvas = .ok none → init_webgl2 canvas = .ok (some r) →
        (init_glow_context_from_canvas env canvas .CompatibilityFirst).2 = .ok (.ok r)) := by
  obtain ⟨h1, h2, h3, h4⟩ := init_glow_characterization env canvas
  refine ⟨by rw [h1], by rw [h2], ?_, ?_, ?_, ?_, ?_, ?_⟩
  · rw [h3]
    rcases hw : init_webgl2 canvas with p | o
    · simp [hw]
    · cases o <;> simp [hw]
  · rw [h4]
    rcases hw : init_webgl1 env canvas with p | o
    · simp [hw]
    · cases o <;> simp [hw]
  · intro r hr
    simp [h1, h4, hr, negotiationResultOf]
  · intro r hr
    simp [h2, h3, hr, negotiationResultOf]
  · intro r h2n h1s
    simp [h3, h2n, h1s, negotiationResultOf]
  · intro r h1n h2s
    simp [h4, h1n, h2s, negotiationResultOf]

/-- C6: a thrown canvas capability query is fatal — it aborts negotiation
with the panic of the `expect` in the source and the other version is never
attempted — while a query that succeeds with no context object means
"version unsupported" and negotiation proceeds to the next candidate
without error; the two outcomes take distinct paths. -/
theorem query_failure_vs_unsupported (env : Browser) (canvas : Canvas) :
    (∀ e, canvas.getContextWebgl = .error e →
        init_webgl1 env canvas = .error "Failed to query about WebGL2 context")
    ∧ (canvas.getContextWebgl = .ok none → init_webgl1 env canvas = .ok none)
    ∧ (∀ e, canvas.getContextWebgl2 = .error e →
        init_webgl2 canvas = .error "Failed to query about WebGL2 context")
    ∧ (canvas.getContextWebgl2 = .ok none → init_webgl2 canvas = .ok none)
    ∧ (∀ e, canvas.getContextWebgl2 = .error e →
        init_glow_context_from_canvas env canvas .BestFirst
          = ([GlQuery.webgl2], .error "Failed to query about WebGL2 context"))
    ∧ (canvas.getContextWebgl2 = .ok none →
        (init_glow_context_from_canvas env canvas .BestFirst).1
          = [GlQuery.webgl2, GlQuery.webgl1])
    ∧ (∀ e, canvas.getContextWebgl = .error e →
        init_glow_context_from_canvas env canvas .CompatibilityFirst
          = ([GlQuery.webgl1], .error "Failed to query about WebGL2 context"))
    ∧ (canvas.getContextWebgl = .ok none →
        (init_glow_context_from_canvas env canvas .CompatibilityFirst).1
          = [GlQuery.webgl1, GlQuery.webgl2]) := by
  obtain ⟨h1, h2, h3, h4⟩ := init_glow_characterization env canvas
  have g1 : ∀ e, canvas.getContextWebgl = .error e →
      init_webgl1 env canvas = .error "Failed to query about WebGL2 context" := by
    intro e he
    rw [init_webgl1, he]
  have g1n : canvas.getContextWebgl = .ok none → init_webgl1 env canvas = .ok none := by
    intro he
    rw [init_webgl1, he]
  have g2 : ∀ e, canvas.getContextWebgl2 = .error e →
      init_webgl2 canvas = .error "Failed to query about WebGL2 context" := by
    intro e he
    rw [init_webgl2, he]
  have g2n : canvas.getContextWebgl2 = .ok none → init_webgl2 canvas = .ok none := by
    intro he
    rw [init_webgl2, he]
  refine ⟨g1, g1n, g2, g2n, ?_, ?_, ?_, ?_⟩
  · intro e he
    rw [h3, g2 e he]
    rfl
  · intro he
    rw [h3, g2n he]
  · intro e he
    rw [h4, g1 e he]
    rfl
  · intro he
    rw [h4, g1n he]

/-- C8: when no candidate version is available for the given strategy —
only the forced version for the two force variants, both versions for the
two prefer variants, each query succeeding with no context object —
negotiation fails with the human-readable unsupported message, and painter
construction returns that error instead of a painter. -/
theorem unsupported_fails_construction (genv : GlowEnv) (env : Browser)
    (canvas : Canvas) (options : WebOptions)
    (h : candidateUnavailable canvas options.webgl_context_option = true) :
    (init_glow_context_from_canvas env canvas options.webgl_context_option).2
      = .ok (.error "WebGL isn't supported")
    ∧ WebPainterGlow.new genv env canvas options
      = .ok (.error "WebGL isn't supported") := by
  obtain ⟨c1, c2, c3, c4⟩ := init_glow_characterization env canvas
  have main : ∀ opt : WebGlContextOption, candidateUnavailable canvas opt = true →
      (init_glow_context_from_canvas env canvas opt).2
        = .ok (.error "WebGL isn't supported") := by
    intro opt hopt
    cases opt
    · simp only [candidateUnavailable, decide_eq_true_eq] at hopt
      have g1 : init_webgl1 env canvas = .ok none := by
        rw [init_webgl1, hopt]
      simp [c1, g1, negotiationResultOf]
    · simp only [candidateUnavailable, decide_eq_true_eq] at hopt
      have g2 : init_webgl2 canvas = .ok none := by
        rw [init_webgl2, hopt]
      simp [c2, g2, negotiationResultOf]
    · simp only [candidateUnavailable, Bool.and_eq_true, decide_eq_true_eq] at hopt
      have g1 : init_webgl1 env canvas = .ok none := by
        rw [init_webgl1, hopt.1]
      have g2 : init_webgl2 canvas = .ok none := by
        rw [init_webgl2, hopt.2]
      simp [c3, g2, g1, negotiationResultOf]
    · simp only [candidateUnavailable, Bool.and_eq_true, decide_eq_true_eq] at hopt
      have g1 : init_webgl1 env canvas = .ok none := by
        rw [init_webgl1, hopt.1]
      have g2 : init_webgl2 canvas = .ok none := by
        rw [init_webgl2, hopt.2]
      simp [c4, g1, g2, negotiationResultOf]
  have key := main options.webgl_context_option h
  refine ⟨key, ?_⟩
  rw [WebPainterGlow.new, key]

/-- A lifted outcome is a double success exactly when the init function
returned a context. -/
theorem negotiationResultOf_ok_ok (r : Except String (Option (GlowContext × String)))
    (x : GlowContext × String) :
    negotiationResultOf r = .ok (.ok x) ↔ r = .ok (some x) := by
  rcases r with p | o
  · simp [negotiationResultOf]
  · cases o <;> simp [negotiationResultOf]

/-- A successful negotiation comes from one of the two init functions
succeeding with the returned value. -/
theorem negotiate_success_cases (env : Browser) (canvas : Canvas)
    (options : WebGlContextOption) (gl : GlowContext) (pre : String)
    (h : (init_glow_context_from_canvas env canvas options).2 = .ok (.ok (gl, pre))) :
    init_webgl1 env canvas = .ok (some (gl, pre))
    ∨ init_webgl2 canvas = .ok (some (gl, pre)) := by
  obtain ⟨c1, c2, c3, c4⟩ := init_glow_characterization env canvas
  cases options
  · rw [c1] at h
    exact Or.inl ((negotiationResultOf_ok_ok _ _).mp h)
  · rw [c2] at h
    exact Or.inr ((negotiationResultOf_ok_ok _ _).mp h)
  · rw [c3] at h
    split at h
    · exact Or.inl ((negotiationResultOf_ok_ok _ _).mp h)
    · exact Or.inr ((negotiationResultOf_ok_ok _ _).mp h)
  · rw [c4] at h
    split at h
    · exact Or.inr ((negotiationResultOf_ok_ok _ _).mp h)
    · exact Or.inl ((negotiationResultOf_ok_ok _ _).mp h)

/-- Characterization of a successful WebGL1 init. -/
theorem init_webgl1_success (env : Browser) (canvas : Canvas)
    (gl : GlowContext) (pre : String)
    (h : init_webgl1 env canvas = .ok (some (gl, pre))) :
    ∃ ctx b, canvas.getContextWebgl = .ok (some ctx)
      ∧ gl = GlowContext.from_webgl1_context ctx
      ∧ webgl1_requires_brightening env ctx = .ok b
      ∧ pre = (if b then brighteningDirective else "") := by
  rw [init_webgl1] at h
  split at h
  · exact absurd h (by simp)
  · exact absurd h (by simp)
  · rename_i ctx hc
    split at h
    · exact absurd h (by simp)
    · rename_i b hb
      simp only [Except.ok.injEq, Option.some.injEq, Prod.mk.injEq] at h
      exact ⟨ctx, b, hc, h.1.symm, hb, h.2.symm⟩

/-- Characterization of a successful WebGL2 init: always the empty shader
preamble. -/
theorem init_webgl2_success (canvas : Canvas) (gl : GlowContext) (pre : String)
    (h : init_webgl2 canvas = .ok (some (gl, pre))) :
    (∃ ctx, gl = GlowContext.from_webgl2_context ctx) ∧ pre = "" := by
  rw [init_webgl2] at h
  split at h
  · exact absurd h (by simp)
  · exact absurd h (by simp)
  · rename_i ctx hc
    simp only [Except.ok.injEq, Option.some.injEq, Prod.mk.injEq] at h
    exact ⟨⟨ctx, h.1.symm⟩, h.2.symm⟩

/-- The brightening boolean computed by the source equals the condition
stated by the spec. -/
theorem brightening_eq_spec (env : Browser) (ctx : WebGlRenderingContext) (b : Bool)
    (h : webgl1_requires_brightening env ctx = .ok b) :
    b = specBrighteningCondition env (GlowContext.from_webgl1_context ctx) := by
  rw [webgl1_requires_brightening] at h
  split at h
  · exact absurd h (by simp)
  · rename_i w hw
    split at h
    · exact absurd h (by simp)
    · rename_i ua hu
      by_cases hm : strContains ua "Mac OS X" = true
      · rw [if_pos hm] at h
        simp only [Except.ok.injEq] at h
        subst h
        simp [specBrighteningCondition, userAgentOf, hw, hu, hm]
      · rw [if_neg hm, is_safari_and_webkit_gtk] at h
        split at h
        · exact absurd h (by simp)
        · rename_i ext he
          cases ext with
          | none =>
            simp only [Option.isSome_none, Bool.false_eq_true, if_false,
              Except.ok.injEq] at h
            subst h
            simp [specBrighteningCondition, userAgentOf, hw, hu, hm, he]
          | some u =>
            simp only [Option.isSome_some] at h
            rw [if_pos trivial] at h
            split at h
            · rename_i jv hp
              split at h
              · rename_i s hs
                by_cases ha : strContains s "Apple" = true
                · rw [if_pos ha] at h
                  simp only [Except.ok.injEq] at h
                  subst h
                  simp [specBrighteningCondition, userAgentOf, rendererName, hw, hu, hm,
                    he, hp, hs, ha]
                · rw [if_neg ha] at h
                  simp only [Except.ok.injEq] at h
                  subst h
                  simp [specBrighteningCondition, userAgentOf, rendererName, hw, hu, hm,
                    he, hp, hs, ha]
              · rename_i hs
                simp only [Except.ok.injEq] at h
                subst h
                simp [specBrighteningCondition, userAgentOf, rendererName, hw, hu, hm,
                  he, hp, hs]
            · rename_i p hp
              simp only [Except.ok.injEq] at h
              subst h
              simp [specBrighteningCondition, userAgentOf, rendererName, hw, hu, hm,
                he, hp]

/-- C4: in every successful negotiation the shader preamble is the
brightening directive exactly when the spec condition holds — legacy
version selected, user agent without "Mac OS X", debug-renderer extension
present, unmasked renderer name containing "Apple" — and the empty string
in every other case, in particular whenever the modern version is
selected. -/
theorem negotiation_brightening (env : Browser) (canvas : Canvas)
    (options : WebGlContextOption) (gl : GlowContext) (pre : String)
    (h : (init_glow_context_from_canvas env canvas options).2 = .ok (.ok (gl, pre))) :
    pre = (if specBrighteningCondition env gl then brighteningDirective else "") := by
  rcases negotiate_success_cases env canvas options gl pre h with h1 | h2
  · obtain ⟨ctx, b, _, hgl, hb, hpre⟩ := init_webgl1_success env canvas gl pre h1
    rw [hpre, hgl, ← brightening_eq_spec env ctx b hb]
  · obtain ⟨⟨ctx, hgl⟩, hpre⟩ := init_webgl2_success canvas gl pre h2
    rw [hpre, hgl]
    simp [specBrighteningCondition]

/-- Updating the entry of a different key leaves a lookup unchanged. -/
theorem lookupKey_map_update (l : List (TextureId × ImageDelta))
    (idt id : TextureId) (d : ImageDelta) (h : ¬idt = id) :
    lookupKey (l.map (fun e => if e.1 = idt then (idt, d) else e)) id
      = lookupKey l id := by
  induction l with
  | nil => rfl
  | cons e tl ih =>
    by_cases he : e.1 = idt
    · by_cases hid : e.1 = id
      · exact absurd (he.symm.trans hid) h
      · simp [lookupKey, he, hid, h, Ne.symm h, ih]
    · by_cases hid : e.1 = id
      · simp [lookupKey, he, hid, Ne.symm h]
      · simp [lookupKey, he, hid, Ne.symm h, ih]

/-- Appending an entry of a different key leaves a lookup unchanged. -/
theorem lookupKey_snoc_ne (l : List (TextureId × ImageDelta))
    (idt id : TextureId) (d : ImageDelta) (h : ¬idt = id) :
    lookupKey (l ++ [(idt, d)]) id = lookupKey l id := by
  induction l with
  | nil => simp [lookupKey, h]
  | cons e tl ih =>
    by_cases hid : e.1 = id <;> simp [lookupKey, hid, ih]

/-- Filtering out a different key leaves a lookup unchanged. -/
theorem lookupKey_filter_ne (l : List (TextureId × ImageDelta))
    (idt id : TextureId) (h : ¬idt = id) :
    lookupKey (l.filter (fun e => e.1 ≠ idt)) id = lookupKey l id := by
  induction l with
  | nil => rfl
  | cons e tl ih =>
    simp only [ne_eq, decide_not] at ih
    by_cases he : e.1 = idt
    · by_cases hid : e.1 = id
      · exact absurd (he.symm.trans hid) h
      · simp [List.filter_cons, lookupKey, he, hid, h, Ne.symm h, ih]
    · by_cases hid : e.1 = id
      · simp [List.filter_cons, lookupKey, he, hid, Ne.symm h]
      · simp [List.filter_cons, lookupKey, he, hid, Ne.symm h, ih]

/-- Uploading under a different id leaves a lookup unchanged. -/
theorem lookupTexture_set_ne (p : Painter) (idt id : TextureId) (d : ImageDelta)
    (h : ¬idt = id) :
    (Painter.set_texture p idt d).lookupTexture id = p.lookupTexture id := by
  rw [Painter.set_texture, Painter.lookupTexture, Painter.lookupTexture]
  simp only
  split
  · exact lookupKey_map_update _ _ _ _ h
  · exact lookupKey_snoc_ne _ _ _ _ h

/-- Freeing a different id leaves a lookup unchanged. -/
theorem lookupTexture_free_ne (p : Painter) (idt id : TextureId) (h : ¬idt = id) :
    (Painter.free_texture p idt).lookupTexture id = p.lookupTexture id := by
  rw [Painter.free_texture, Painter.lookupTexture, Painter.lookupTexture]
  exact lookupKey_filter_ne _ _ _ h

/-- A fold of uploads over ids other than the looked-up one is invisible. -/
theorem foldl_set_lookup (l : List (TextureId × ImageDelta)) (p : Painter)
    (id : TextureId) (h : ∀ e ∈ l, ¬e.1 = id) :
    (l.foldl (fun p e => Painter.set_texture p e.1 e.2) p).lookupTexture id
      = p.lookupTexture id := by
  induction l generalizing p with
  | nil => rfl
  | cons e tl ih =>
    rw [List.foldl_cons, ih _ (fun x hx => h x (List.mem_cons_of_mem _ hx)),
      lookupTexture_set_ne _ _ _ _ (h e (List.mem_cons_self _ _))]

/-- A fold of frees over ids other than the looked-up one is invisible. -/
theorem foldl_free_lookup (l : List TextureId) (p : Painter) (id : TextureId)
    (h : ∀ i ∈ l, ¬i = id) :
    (l.foldl (fun p i => Painter.free_texture p i) p).lookupTexture id
      = p.lookupTexture id := by
  induction l generalizing p with
  | nil => rfl
  | cons i tl ih =>
    rw [List.foldl_cons, ih _ (fun x hx => h x (List.mem_cons_of_mem _ hx)),
      lookupTexture_free_ne _ _ _ (h i (List.mem_cons_self _ _))]

/-- C7 counterexample: the claim that any host-API failure during a paint
call propagates to the caller as an error is false — at a concrete input
whose host fails every call, the paint call still returns `Ok(())`; the
source has no error path at all. -/
theorem paint_error_propagation_false :
    ¬(∀ (env : PaintEnv) (st : WebPainterGlow) (clear_color : ClearColor)
        (prims : List ClippedPrimitive) (ppp : Rat) (delta : TexturesDelta)
        (capture : List UserData),
        ((paint_and_update_textures env st clear_color prims ppp delta
            capture).trace.any env.callFails) = true →
        ∃ e, (paint_and_update_textures env st clear_color prims ppp delta
            capture).result = Except.error e) := by
  intro hclaim
  obtain ⟨e, he⟩ := hclaim samplePaintEnv sampleQueueState sampleClear [] 1
    { set := [], free := [] } [] (by rfl)
  exact absurd he (by simp [paint_and_update_textures])

/-- C7 amended: a paint call has no failure path — it always returns
`Ok(())` — and prior state survives it: the canvas handle is unchanged, the
previous screenshot-queue contents remain a prefix of the queue, and every
previously uploaded texture whose id is neither re-uploaded nor freed by
this delta is intact. -/
theorem paint_infallible_preserves_state (env : PaintEnv) (st : WebPainterGlow)
    (clear_color : ClearColor) (prims : List ClippedPrimitive) (ppp : Rat)
    (delta : TexturesDelta) (capture : List UserData) :
    (paint_and_update_textures env st clear_color prims ppp delta capture).result
      = .ok ()
    ∧ (paint_and_update_textures env st clear_color prims ppp delta capture).state.canvas
      = st.canvas
    ∧ (paint_and_update_textures env st clear_color prims ppp delta
        capture).state.screenshots.take st.screenshots.length = st.screenshots
    ∧ ∀ id, (∀ e ∈ delta.set, ¬e.1 = id) → id ∉ delta.free →
        Painter.lookupTexture
          (paint_and_update_textures env st clear_color prims ppp delta
            capture).state.painter id
          = Painter.lookupTexture st.painter id := by
  refine ⟨rfl, rfl, ?_, ?_⟩
  · by_cases h : capture.isEmpty <;>
      simp [paint_and_update_textures, h, List.take_left]
  · intro id hset hfree
    have hstate : (paint_and_update_textures env st clear_color prims ppp delta
        capture).state.painter
        = delta.free.foldl (fun p i => Painter.free_texture p i)
            (delta.set.foldl (fun p e => Painter.set_texture p e.1 e.2) st.painter) := by
      by_cases h : capture.isEmpty <;> simp [paint_and_update_textures, h]
    rw [hstate,
      foldl_free_lookup _ _ _ (fun i hi hieq => hfree (by rw [hieq] at hi; exact hi)),
      foldl_set_lookup _ _ _ hset]

/-- Witness for the strategy-order theorem: concrete canvases exercising
first-success on each strategy and the fallbacks of both prefer variants. -/
theorem negotiation_strategy_versions_witness :
    ((init_glow_context_from_canvas sampleBrowser canvasBoth .WebGl1).2
        = .ok (.ok (GlowContext.from_webgl1_context sampleGl1Ctx, brighteningDirective))
      ∧ (init_glow_context_from_canvas sampleBrowser canvasBoth .CompatibilityFirst).2
        = .ok (.ok (GlowContext.from_webgl1_context sampleGl1Ctx, brighteningDirective)))
    ∧ ((init_glow_context_from_canvas sampleBrowser canvasBoth .WebGl2).2
        = .ok (.ok (GlowContext.from_webgl2_context sampleGl2Ctx, ""))
      ∧ (init_glow_context_from_canvas sampleBrowser canvasBoth .BestFirst).2
        = .ok (.ok (GlowContext.from_webgl2_context sampleGl2Ctx, "")))
    ∧ (init_glow_context_from_canvas sampleBrowser canvasOnly1 .BestFirst).2
        = .ok (.ok (GlowContext.from_webgl1_context sampleGl1Ctx, brighteningDirective))
    ∧ (init_glow_context_from_canvas sampleBrowser canvasOnly2 .CompatibilityFirst).2
        = .ok (.ok (GlowContext.from_webgl2_context sampleGl2Ctx, "")) :=
  ⟨(negotiation_strategy_versions sampleBrowser canvasBoth).2.2.2.2.1 _ (by decide),
   (negotiation_strategy_versions sampleBrowser canvasBoth).2.2.2.2.2.1 _ (by decide),
   (negotiation_strategy_versions sampleBrowser canvasOnly1).2.2.2.2.2.2.1 _
     (by decide) (by decide),
   (negotiation_strategy_versions sampleBrowser canvasOnly2).2.2.2.2.2.2.2 _
     (by decide) (by decide)⟩

/-- Witness for the brightening theorem: a successful WebGL1 negotiation on
a WebKitGTK-like host yields the brightening directive. -/
theorem negotiation_brightening_witness :
    (init_glow_context_from_canvas sampleBrowser canvasOnly1 .WebGl1).2
        = .ok (.ok (GlowContext.from_webgl1_context sampleGl1Ctx, brighteningDirective))
    ∧ brighteningDirective
        = (if specBrighteningCondition sampleBrowser
              (GlowContext.from_webgl1_context sampleGl1Ctx)
           then brighteningDirective else "") :=
  ⟨by decide,
   negotiation_brightening sampleBrowser canvasOnly1 .WebGl1
     (GlowContext.from_webgl1_context sampleGl1Ctx) brighteningDirective (by decide)⟩

/-- Witness for the query-failure theorem: a throwing canvas makes the
attempt fatal without retry, a null-returning canvas makes negotiation
proceed to the other version. -/
theorem query_failure_vs_unsupported_witness :
    init_webgl1 sampleBrowser canvasErrBoth
        = .error "Failed to query about WebGL2 context"
    ∧ init_glow_context_from_canvas sampleBrowser canvasErrBoth .BestFirst
        = ([GlQuery.webgl2], .error "Failed to query about WebGL2 context")
    ∧ (init_glow_context_from_canvas sampleBrowser canvasNone .BestFirst).1
        = [GlQuery.webgl2, GlQuery.webgl1]
    ∧ (init_glow_context_from_canvas sampleBrowser canvasNone .CompatibilityFirst).1
        = [GlQuery.webgl1, GlQuery.webgl2] :=
  ⟨(query_failure_vs_unsupported sampleBrowser canvasErrBoth).1 "ctx query threw"
     (by decide),
   (query_failure_vs_unsupported sampleBrowser canvasErrBoth).2.2.2.2.1
     "ctx query threw" (by decide),
   (query_failure_vs_unsupported sampleBrowser canvasNone).2.2.2.2.2.1 (by decide),
   (query_failure_vs_unsupported sampleBrowser canvasNone).2.2.2.2.2.2.2 (by decide)⟩

/-- Witness for the unsupported-failure theorem: each force strategy fails
when its own version is missing even though the other is available, and
the default strategy fails on a canvas offering neither. -/
theorem unsupported_fails_construction_witness :
    (candidateUnavailable canvasOnly2 sampleOptionsForce1.webgl_context_option = true
      ∧ WebPainterGlow.new sampleGlowEnv sampleBrowser canvasOnly2 sampleOptionsForce1
          = .ok (.error "WebGL isn't supported"))
    ∧ (candidateUnavailable canvasOnly1 sampleOptionsForce2.webgl_context_option = true
      ∧ WebPainterGlow.new sampleGlowEnv sampleBrowser canvasOnly1 sampleOptionsForce2
          = .ok (.error "WebGL isn't supported"))
    ∧ WebPainterGlow.new sampleGlowEnv sampleBrowser canvasNone sampleOptions
        = .ok (.error "WebGL isn't supported") :=
  ⟨⟨by decide,
    (unsupported_fails_construction sampleGlowEnv sampleBrowser canvasOnly2
      sampleOptionsForce1 (by decide)).2⟩,
   ⟨by decide,
    (unsupported_fails_construction sampleGlowEnv sampleBrowser canvasOnly1
      sampleOptionsForce2 (by decide)).2⟩,
   (unsupported_fails_construction sampleGlowEnv sampleBrowser canvasNone
      sampleOptions (by decide)).2⟩

/-- Witness for the default-viewport theorem at a concrete queue. -/
theorem handle_screenshots_default_viewport_witness :
    (Event.Screenshot ViewportId.default sampleImage sampleToken)
        ∈ ((handle_screenshots sampleQueueState []).2.drop ([] : List Event).length)
    ∧ (Event.Screenshot ViewportId.default sampleImage sampleToken).viewportId
        = some ViewportId.default :=
  ⟨by decide,
   handle_screenshots_default_viewport sampleQueueState []
     (Event.Screenshot ViewportId.default sampleImage sampleToken) (by decide)⟩

/-- Witness for the amended paint theorem: with a delta touching other ids,
the previously uploaded texture is intact after the call. -/
theorem paint_infallible_preserves_state_witness :
    (∀ e ∈ sampleDelta.set, ¬e.1 = TextureId.Managed 0)
    ∧ TextureId.Managed 0 ∉ sampleDelta.free
    ∧ Painter.lookupTexture
        (paint_and_update_textures samplePaintEnv sampleQueueState sampleClear []
          1 sampleDelta [sampleToken]).state.painter (TextureId.Managed 0)
        = Painter.lookupTexture sampleQueueState.painter (TextureId.Managed 0) :=
  ⟨by decide, by decide,
   (paint_infallible_preserves_state samplePaintEnv sampleQueueState sampleClear []
      1 sampleDelta [sampleToken]).2.2.2 (TextureId.Managed 0) (by decide) (by decide)⟩

end WebPainterGlowSpec
